import Mathlib

/-!
Verification of the session lifecycle and routing core of the Slack ↔ Claude Code
bridge (`bridge.js`, multi-session variant) and of the prompt-forwarding hook in
`slack-notify.sh`.

The JavaScript source is shallowly embedded: text is `List Char`; JS `String.trim`
and `toLowerCase` are modelled over ASCII (`Char.toLower` from core Lean matches
JS on basic latin letters, the only letters the bridge compares); the session
registry (a JSON object `threadTs → session`) is an association list; external
actions (tmux commands, Slack posts, file writes) are reified as an `Effect` list;
the md5 function is an abstract parameter of the theorems (hash collisions are
outside the model, so theorems that need hash equality to imply text equality take
injectivity as a hypothesis).
-/

namespace SlackBridge

/-- Text is modelled as a list of characters. -/
abbrev Str := List Char

/-- Convert a Lean string literal to the `Str` model. -/
def str (s : String) : Str := s.data

/-- Whitespace test covering the characters trimmed both by JS `String.trim`
(restricted to ASCII) and by the hook's `sed s/[[:space:]]//`: space, tab,
newline, vertical tab, form feed, carriage return. -/
def isWs (c : Char) : Bool :=
  decide (c.toNat = 32 ∨ c.toNat = 9 ∨ c.toNat = 10 ∨ c.toNat = 11 ∨ c.toNat = 12 ∨ c.toNat = 13)

/-- Model of JS `String.trimStart`. -/
def trimLeft (l : Str) : Str := l.dropWhile isWs

/-- Model of JS `String.trim` (both ends). -/
def trim (l : Str) : Str := ((trimLeft l).reverse.dropWhile isWs).reverse

/-- Model of JS `String.toLowerCase`, ASCII-accurate (`Char.toLower` lowers
exactly basic latin letters, as the bridge only compares ASCII words). -/
def toLowerStr (l : Str) : Str := l.map Char.toLower

/-- Digit `1`-`9` test (`/^[1-9]$/` on a single character). -/
def isDigit19 (c : Char) : Bool := decide (49 ≤ c.toNat ∧ c.toNat ≤ 57)

/-- `l.dropWhile isWs`, the maximal-munch of the regex `\s+`. -/
def dropWs (l : Str) : Str := l.dropWhile isWs

/-- Decimal rendering of a number, for interpolated message texts. -/
def natToStr (n : Nat) : Str := Nat.toDigits 10 n

/-- JS `a || b` for an optional string: `null`/`undefined` and `""` are falsy. -/
def jsOr (a : Option Str) (b : Str) : Str :=
  match a with
  | some s => if s = [] then b else s
  | none => b

-- ============================================
-- Option parsing (bridge.js `isOptionSelection`, `isRejectionOption`,
-- `parseOptionWithInstructions`, `getOptionKey`)
-- ============================================

/-- `s` is a one-character string matching `/^[1-9]$/`. -/
def isSingleDigit19 (s : Str) : Bool :=
  match s with
  | [c] => isDigit19 c
  | _ => false

/-- bridge.js `isOptionSelection`: the trimmed, lowercased text is a single
digit `1`-`9` or one of `yes`, `no`, `y`, `n`. -/
def isOptionSelection (text : Str) : Bool :=
  let n := toLowerStr (trim text)
  isSingleDigit19 n || decide (n = str "yes") || decide (n = str "no") ||
    decide (n = str "y") || decide (n = str "n")

/-- bridge.js `isRejectionOption`: trimmed lowercased text is `3`, `n` or `no`. -/
def isRejectionOption (text : Str) : Bool :=
  let n := toLowerStr (trim text)
  decide (n = str "3") || decide (n = str "n") || decide (n = str "no")

/-- bridge.js `getOptionKey`: digit maps to itself, `yes`/`y` to `1`,
`no`/`n` to `3`. -/
def getOptionKey (text : Str) : Option Char :=
  let n := toLowerStr (trim text)
  if isSingleDigit19 n then n.head?
  else if n = str "yes" ∨ n = str "y" then some '1'
  else if n = str "no" ∨ n = str "n" then some '3'
  else none

/-- The digit form `^([1-9])\.?\s+(.+)$` (with `/s`) of
`parseOptionWithInstructions`, applied to the trimmed text: a digit, an
optional dot, at least one whitespace character, then the (trimmed) rest.
Since the scrutinee is trimmed, the greedy `\s+(.+)$` split is exactly
`dropWhile isWs`. -/
def parseDigitForm (normalized : Str) : Option (Char × Str) :=
  match normalized with
  | d :: rest0 =>
    if isDigit19 d then
      let rest1 := match rest0 with
        | '.' :: r => r
        | r => r
      match rest1 with
      | c :: _ => if isWs c then some (d, trim (dropWs rest1)) else none
      | [] => none
    else none
  | [] => none

/-- Case-insensitive word prefix, the `(yes|y)`/`(no|n)` part of the `/i`
regexes: every character of `w` (already lowercase) must equal the lowering
of the corresponding character of `l`. -/
def ciWordMatch (w l : Str) : Bool :=
  match w, l with
  | [], _ => true
  | _ :: _, [] => false
  | a :: w', b :: l' => decide (Char.toLower b = a) && ciWordMatch w' l'

/-- One alternative `^<word>\s+(.+)$` (with `/is`) of
`parseOptionWithInstructions`, applied to the trimmed text. -/
def tryWordForm (w : Str) (key : Char) (normalized : Str) : Option (Char × Str) :=
  if ciWordMatch w normalized then
    let rest := normalized.drop w.length
    match rest with
    | c :: _ => if isWs c then some (key, trim (dropWs rest)) else none
    | [] => none
  else none

/-- bridge.js `parseOptionWithInstructions`: after trimming, try
`^([1-9])\.?\s+(.+)$`, then `^(yes|y)\s+(.+)$/i`, then `^(no|n)\s+(.+)$/i`
(the regex alternation order); `yes`/`y` map to option `1`, `no`/`n` to
option `3`. Returns the option digit and the trimmed trailing instructions. -/
def parseOptionWithInstructions (text : Str) : Option (Char × Str) :=
  let normalized := trim text
  match parseDigitForm normalized with
  | some r => some r
  | none =>
    match tryWordForm (str "yes") '1' normalized with
    | some r => some r
    | none =>
      match tryWordForm (str "y") '1' normalized with
      | some r => some r
      | none =>
        match tryWordForm (str "no") '3' normalized with
        | some r => some r
        | none => tryWordForm (str "n") '3' normalized

-- ============================================
-- Keystroke model (bridge.js `sendToWindow`)
-- ============================================

/-- A keystroke or text injection into a tmux window (`tmux send-keys`;
`literal` is the `-l` flag; shell quoting is the adapter's concern and is
not modelled). -/
inductive KeyAction where
  | down
  | tab
  | enter
  | escape
  | key (c : Char)
  | literal (s : Str)
deriving DecidableEq

/-- bridge.js `sendToWindow` as the ordered list of keystrokes injected into
the window: option-with-instructions sends Down (option − 1) times, Tab, the
instructions as a literal, Enter; a simple option sends only its digit key;
anything else is sent as a literal followed by Enter and (after a delay) a
second Enter. Delays are not part of the model. -/
def sendToWindow (text : Str) : List KeyAction :=
  match parseOptionWithInstructions text with
  | some (d, instructions) =>
    List.replicate (d.toNat - 48 - 1) KeyAction.down ++
      [KeyAction.tab, KeyAction.literal instructions, KeyAction.enter]
  | none =>
    if isOptionSelection text then
      match getOptionKey text with
      | some k => [KeyAction.key k]
      | none => [KeyAction.literal text, KeyAction.enter, KeyAction.enter]
    else [KeyAction.literal text, KeyAction.enter, KeyAction.enter]

-- ============================================
-- Claim-side (spec-worded) classification for the keystroke policy
-- ============================================

/-- Spec wording of a "simple option": after trimming, case-insensitively, a
single digit `1`-`9` stands for itself, `yes`/`y` for `1`, `no`/`n` for `3`.
Written from the claim text, to be compared with `isOptionSelection` and
`getOptionKey` from the source. -/
def specSimpleOption (text : Str) : Option Char :=
  let n := toLowerStr (trim text)
  if n = str "yes" ∨ n = str "y" then some '1'
  else if n = str "no" ∨ n = str "n" then some '3'
  else
    match n with
    | [c] => if isDigit19 c then some c else none
    | _ => none

end SlackBridge


namespace SlackBridge

-- ============================================
-- Data model: sessions and the registry
-- ============================================

/-- Session status values stored in `/tmp/claude-slack-sessions.json`. -/
inductive Status where
  | starting
  | active
  | idle
  | terminated
deriving DecidableEq

/-- One registry record (bridge.js session object). Timestamps are opaque
numbers; `sessionId` is the assistant's full conversation UUID, learned from
the first response (`null` until then); absent JS fields (`pendingPermission`,
`lastMessageTs` on fresh records) are the falsy defaults. -/
structure Session where
  window : Str
  sessionId : Option Str
  channel : Str
  workingDir : Str
  created_at : Nat
  last_activity : Nat
  idle_since : Option Nat
  status : Status
  pendingPermission : Bool
  lastMessageTs : Option Str
deriving DecidableEq

/-- The registry: JSON object `threadTs → Session` as an association list. -/
abbrev Registry := List (Str × Session)

/-- `sessions[threadTs]` lookup. -/
def regLookup (r : Registry) (t : Str) : Option Session :=
  match r with
  | [] => none
  | (k, v) :: rest => if k = t then some v else regLookup rest t

/-- `sessions[threadTs] = s` update (replaces the existing binding, else
appends). -/
def regSet (r : Registry) (t : Str) (v : Session) : Registry :=
  match r with
  | [] => [(t, v)]
  | (k, w) :: rest => if k = t then (t, v) :: rest else (k, w) :: regSet rest t v

/-- `Object.values(sessions).filter(s => s.status !== 'terminated').length`,
the count checked against `maxConcurrent` (bridge.js `handleMessage`). -/
def activeCount (r : Registry) : Nat :=
  (r.filter (fun p => decide (p.2.status ≠ Status.terminated))).length

-- ============================================
-- Configuration (bridge.js `loadConfig`)
-- ============================================

/-- The `multiSession` object as read from `config.json`, before defaulting
(absent fields are `none`). -/
structure RawMultiSession where
  maxConcurrent : Option Nat
  idleTimeoutMinutes : Option Nat
  notifyOnTimeout : Option Bool
  tmuxSession : Option Str
  defaultWorkingDir : Option Str
  tempFileRetentionDays : Option Nat

/-- `config.json` before defaulting. Only the fields the core logic reads
are modelled; the tokens are opaque strings. -/
structure RawConfig where
  allowedUsers : Option (List Str)
  multiSession : Option RawMultiSession

/-- `multiSession` after `loadConfig` applied its defaults. -/
structure MultiSessionConfig where
  maxConcurrent : Nat
  idleTimeoutMinutes : Nat
  notifyOnTimeout : Bool
  tmuxSession : Str
  defaultWorkingDir : Str
  tempFileRetentionDays : Nat
deriving DecidableEq

/-- Effective configuration. -/
structure Config where
  allowedUsers : Option (List Str)
  multiSession : MultiSessionConfig

/-- JS `x || d` for an optional number: absent and `0` are falsy and give the
default. -/
def jsOrNat (v : Option Nat) (d : Nat) : Nat :=
  match v with
  | some n => if n = 0 then d else n
  | none => d

/-- bridge.js `loadConfig` defaulting:
`config.multiSession.maxConcurrent = config.multiSession.maxConcurrent || 5`
and the sibling lines. `||` treats `0`, `""`, `false` and absence as falsy. -/
def loadConfig (raw : RawConfig) : Config :=
  let ms := raw.multiSession.getD
    { maxConcurrent := none, idleTimeoutMinutes := none, notifyOnTimeout := none,
      tmuxSession := none, defaultWorkingDir := none, tempFileRetentionDays := none }
  { allowedUsers := raw.allowedUsers,
    multiSession :=
      { maxConcurrent := jsOrNat ms.maxConcurrent 5,
        idleTimeoutMinutes := jsOrNat ms.idleTimeoutMinutes 60,
        notifyOnTimeout := ms.notifyOnTimeout.getD false,
        tmuxSession := jsOr ms.tmuxSession (str "claude"),
        defaultWorkingDir := jsOr ms.defaultWorkingDir (str "~"),
        tempFileRetentionDays := jsOrNat ms.tempFileRetentionDays 14 } }

-- ============================================
-- Effects: reified external actions
-- ============================================

/-- An external action of the bridge: a Slack post, a tmux command, a pending
hash-file write, a reaction, or a temp-directory removal. -/
inductive Effect where
  | say (threadTs : Str) (text : Str)
  | postMessage (channel : Str) (threadTs : Str) (text : Str)
  | createWindow (name : Str)
  | cdTo (window : Str) (dir : Str)
  | launchAssistant (window : Str) (resume : Option Str)
  | trustKey (window : Str)
  | killWindow (name : Str)
  | sendKeys (window : Str) (keys : List KeyAction)
  | writePendingFile (threadTs : Str) (content : Str)
  | addEyesReaction (messageTs : Str)
  | removeEyesReaction (messageTs : Str)
  | deleteTempDir (path : Str)
deriving DecidableEq

/-- The limit notice posted when `maxConcurrent` is reached. -/
def limitNoticeText (m : Nat) : Str :=
  str "⚠️ Maximum concurrent sessions (" ++ natToStr m ++
    str ") reached. Please wait for an existing conversation to complete."

/-- The optional timeout notice of `notifySessionEnded`. -/
def timeoutNoticeText : Str :=
  str "⏱️ Session timed out due to inactivity. Send a message to restart."

/-- Confirmation posted after a terminate reaction. -/
def skullViaReactionText : Str :=
  str ":skull: Session terminated via reaction."

/-- Provisional window name `new-<N>` (bridge.js `windowIndex`). -/
def provisionalName (n : Nat) : Str := str "new-" ++ natToStr n

/-- `window.startsWith('new-')`. -/
def startsWithNew (w : Str) : Bool :=
  match w with
  | 'n' :: 'e' :: 'w' :: '-' :: _ => true
  | _ => false

end SlackBridge

namespace SlackBridge

-- ============================================
-- Working directory handling (bridge.js `parseWorkingDir`,
-- `resolveWorkingDir`)
-- ============================================

/-- Result of a `statSync` on a path: a directory, something else, or an
exception (path absent). -/
inductive FsStat where
  | directory
  | file
  | absent
deriving DecidableEq

/-- `path.replace(/^~/, process.env.HOME)`. -/
def tildeExpand (home : Str) (p : Str) : Str :=
  match p with
  | '~' :: rest => home ++ rest
  | _ => p

/-- bridge.js `parseWorkingDir`: strip a leading `[<path>]` (regex
`^\[([^\]]+)\]\s*`), returning the requested path (if the form matches with a
non-empty bracket) and the remaining message. -/
def parseWorkingDir (text : Str) : Option Str × Str :=
  match text with
  | '[' :: rest =>
    let inside := rest.takeWhile (fun c => !decide (c = ']'))
    match rest.dropWhile (fun c => !decide (c = ']')) with
    | ']' :: after =>
      if inside = [] then (none, text) else (some inside, dropWs after)
    | _ => (none, text)
  | _ => (none, text)

/-- bridge.js `resolveWorkingDir`: no request gives the default directory; a
requested path is `~`-expanded and must stat as a directory, otherwise a
warning is produced and the default is used. `stat` abstracts the
filesystem. -/
def resolveWorkingDir (cfg : Config) (stat : Str → FsStat) (home : Str)
    (requested : Option Str) : Str × Option Str :=
  let defaultDir := tildeExpand home cfg.multiSession.defaultWorkingDir
  match requested with
  | none => (defaultDir, none)
  | some rp =>
    let resolved := tildeExpand home rp
    match stat resolved with
    | FsStat.directory => (resolved, none)
    | FsStat.file =>
      (defaultDir, some (str "⚠️ Path is not a directory: `" ++ rp ++ str "`, using default"))
    | FsStat.absent =>
      (defaultDir, some (str "⚠️ Path not found: `" ++ rp ++ str "`, using default"))

-- ============================================
-- Session lifecycle (bridge.js `createSession`, `resurrectSession`,
-- `terminateSession`)
-- ============================================

/-- bridge.js `createSession`: the fresh record (provisional window, no
assistant id yet, `starting`) and the tmux effects — create the window, `cd`
only when a working directory was requested, launch the assistant with the
thread/channel environment, and the delayed trust-prompt keystroke. -/
def createSession (home : Str) (channel : Str) (workingDir : Option Str)
    (idx : Nat) (now : Nat) : Session × List Effect :=
  let w := provisionalName idx
  let record : Session :=
    { window := w, sessionId := none, channel := channel,
      workingDir := jsOr workingDir home,
      created_at := now, last_activity := now, idle_since := none,
      status := Status.starting, pendingPermission := false, lastMessageTs := none }
  let cdEffects : List Effect :=
    match workingDir with
    | some d => if d = [] then [] else [Effect.cdTo w d]
    | none => []
  (record, [Effect.createWindow w] ++ cdEffects ++
    [Effect.launchAssistant w none, Effect.trustKey w])

/-- bridge.js `resurrectSession`: like `createSession` but the assistant is
launched with `--resume <fullSessionId>`, and the directory is
`workingDir || sessions[threadTs]?.workingDir || HOME` (the record consulted
is the stored one for the thread). -/
def resurrectSession (home : Str) (sessions : Registry) (threadTs : Str)
    (channel : Str) (fullSessionId : Str) (workingDir : Option Str)
    (idx : Nat) (now : Nat) : Session × List Effect :=
  let w := provisionalName idx
  let storedDir : Option Str := (regLookup sessions threadTs).map Session.workingDir
  let effectiveDir := jsOr workingDir (jsOr storedDir home)
  let record : Session :=
    { window := w, sessionId := some fullSessionId, channel := channel,
      workingDir := effectiveDir,
      created_at := now, last_activity := now, idle_since := none,
      status := Status.starting, pendingPermission := false, lastMessageTs := none }
  (record, [Effect.createWindow w, Effect.cdTo w effectiveDir,
    Effect.launchAssistant w (some fullSessionId), Effect.trustKey w])

/-- bridge.js `terminateSession`: kill the window (a missing window is
swallowed), set the registry record's status to `terminated` (nothing else is
touched; temp files are deliberately left for resurrection), and post the
timeout notice only when `notifyOnTimeout` is configured. -/
def terminateSession (cfg : Config) (sessions : Registry) (threadTs : Str)
    (session : Session) : Registry × List Effect :=
  let sessions' :=
    match regLookup sessions threadTs with
    | some s => regSet sessions threadTs { s with status := Status.terminated }
    | none => sessions
  let notifyEffects : List Effect :=
    if cfg.multiSession.notifyOnTimeout then
      [Effect.postMessage session.channel threadTs timeoutNoticeText]
    else []
  (sessions', [Effect.killWindow session.window] ++ notifyEffects)

-- ============================================
-- Inbound message: session creation decision
-- (bridge.js `handleMessage`, lines 758-836)
-- ============================================

/-- Attachment descriptor of an inbound Slack message (only the name matters
for the supported-type filter; the download itself is abstracted). -/
structure FileDesc where
  name : Option Str
deriving DecidableEq

/-- An inbound Slack message as seen by `handleMessage`: absent `text` is the
empty string (`message.text || ''`), `thread_ts` is set exactly on thread
replies. -/
structure InboundMessage where
  text : Str
  ts : Str
  thread_ts : Option Str
  files : List FileDesc

/-- `message.thread_ts || message.ts`. -/
def threadOf (msg : InboundMessage) : Str := msg.thread_ts.getD msg.ts

/-- Outcome of the session-ensuring prefix of `handleMessage`. -/
inductive CreationOutcome where
  | emptyIgnored
  | alreadyExists (s : Session)
  | limitReached
  | resurrected (s : Session)
  | createdNew (s : Session)
deriving DecidableEq

/-- The body of the creation critical section (bridge.js `handleMessage`
lines 799-821, inside `withSessionLock`): count non-terminated sessions
against `maxConcurrent`; at the limit post the notice and create nothing;
otherwise resurrect when the stored record is `terminated` with a known
`sessionId` and a non-provisional window, else create a brand-new session;
persist the new record with `saveSessions`. -/
def creationLocked (cfg : Config) (home : Str) (sessions : Registry)
    (threadTs : Str) (channel : Str) (workingDir : Option Str)
    (idx : Nat) (now : Nat) : CreationOutcome × Registry × List Effect :=
  if cfg.multiSession.maxConcurrent ≤ activeCount sessions then
    (CreationOutcome.limitReached, sessions,
      [Effect.say threadTs (limitNoticeText cfg.multiSession.maxConcurrent)])
  else
    match regLookup sessions threadTs with
    | some s =>
      match s.sessionId with
      | some sid =>
        if s.status = Status.terminated ∧ startsWithNew s.window = false then
          let r := resurrectSession home sessions threadTs channel sid workingDir idx now
          (CreationOutcome.resurrected r.1, regSet sessions threadTs r.1, r.2)
        else
          let r := createSession home channel workingDir idx now
          (CreationOutcome.createdNew r.1, regSet sessions threadTs r.1, r.2)
      | none =>
        let r := createSession home channel workingDir idx now
        (CreationOutcome.createdNew r.1, regSet sessions threadTs r.1, r.2)
    | none =>
      let r := createSession home channel workingDir idx now
      (CreationOutcome.createdNew r.1, regSet sessions threadTs r.1, r.2)

/-- The session-ensuring prefix of `handleMessage` (lines 758-836): drop
empty messages; parse and resolve a `[<path>]` working-directory prefix on
new threads; reuse an existing non-terminated session; otherwise run the
creation critical section, returning early on `limitReached` (before any
directory warning) and posting the directory warning after a creation. -/
def handleMessageCreation (cfg : Config) (stat : Str → FsStat) (home : Str)
    (sessions : Registry) (msg : InboundMessage) (channel : Str)
    (idx : Nat) (now : Nat) : CreationOutcome × Registry × List Effect :=
  let threadTs := threadOf msg
  if msg.text = [] ∧ msg.files = [] then
    (CreationOutcome.emptyIgnored, sessions, [])
  else
    let wd : Option Str × Option Str :=
      if msg.thread_ts = none ∧ msg.text ≠ [] then
        let parsed := parseWorkingDir msg.text
        let resolved := resolveWorkingDir cfg stat home parsed.1
        (some resolved.1, resolved.2)
      else (none, none)
    let proceed : Bool :=
      match regLookup sessions threadTs with
      | some s => decide (s.status = Status.terminated)
      | none => true
    if proceed then
      let r := creationLocked cfg home sessions threadTs channel wd.1 idx now
      match r.1 with
      | CreationOutcome.limitReached => r
      | _ =>
        let warnEffects : List Effect :=
          match wd.2 with
          | some w => [Effect.say threadTs w]
          | none => []
        (r.1, r.2.1, r.2.2 ++ warnEffects)
    else
      match regLookup sessions threadTs with
      | some s => (CreationOutcome.alreadyExists s, sessions, [])
      | none => (CreationOutcome.emptyIgnored, sessions, [])

end SlackBridge

namespace SlackBridge

-- ============================================
-- File attachments (bridge.js `isFileSupported`, `handleMessage` file loop)
-- ============================================

/-- `SUPPORTED_IMAGE_TYPES`. -/
def supportedImageTypes : List Str :=
  [str "png", str "jpg", str "jpeg", str "gif", str "webp"]

/-- `SUPPORTED_DOC_TYPES`. -/
def supportedDocTypes : List Str := [str "pdf"]

/-- `SUPPORTED_TEXT_TYPES`. -/
def supportedTextTypes : List Str :=
  [str "txt", str "md", str "json", str "js", str "ts", str "jsx", str "tsx",
   str "py", str "rb", str "go", str "rs", str "java",
   str "c", str "cpp", str "h", str "hpp", str "cs", str "php", str "html",
   str "css", str "scss", str "sass", str "less",
   str "xml", str "yaml", str "yml", str "toml", str "ini", str "conf",
   str "cfg", str "sh", str "bash", str "zsh",
   str "sql", str "graphql", str "vue", str "svelte", str "astro", str "swift",
   str "kt", str "scala", str "clj",
   str "ex", str "exs", str "erl", str "hs", str "ml", str "fs", str "r",
   str "jl", str "lua", str "pl", str "pm", str "rake",
   str "gemspec", str "podspec", str "gradle", str "cmake", str "makefile",
   str "dockerfile", str "env",
   str "gitignore", str "editorconfig", str "prettierrc", str "eslintrc",
   str "babelrc"]

/-- Well-known extensionless file names. -/
def knownFiles : List Str :=
  [str "makefile", str "dockerfile", str "gemfile", str "rakefile", str "procfile"]

/-- What kind of attachment a supported file is. -/
inductive FileKind where
  | image
  | document
  | textFile
  | unknown
deriving DecidableEq

/-- bridge.js `isFileSupported`: the lowercased final `.`-component (the whole
name when there is no dot) is looked up in the three extension lists, then the
whole lowercased name in `knownFiles`. -/
def isFileSupported (filename : Str) : Bool × FileKind :=
  let lower := toLowerStr filename
  let ext := ((lower.splitOn '.').getLast?).getD []
  let basename := lower
  if ext ∈ supportedImageTypes then (true, FileKind.image)
  else if ext ∈ supportedDocTypes then (true, FileKind.document)
  else if ext ∈ supportedTextTypes then (true, FileKind.textFile)
  else if basename ∈ knownFiles then (true, FileKind.textFile)
  else (false, FileKind.unknown)

/-- The attachment loop of `handleMessage` (lines 851-867): for each file in
order, a supported type is downloaded — a failed download (`null` path:
bad status or timeout) is silently skipped — while an unsupported type is
recorded by name (`file.name || 'unknown'`). `download` abstracts
`downloadSlackFile` (`none` = failure). Returns (local paths, unsupported
names). -/
def processFiles (download : FileDesc → Option Str) : List FileDesc → List Str × List Str
  | [] => ([], [])
  | f :: rest =>
    let fname := jsOr f.name []
    if (isFileSupported fname).1 then
      match download f with
      | some p =>
        let r := processFiles download rest
        (p :: r.1, r.2)
      | none => processFiles download rest
    else
      let r := processFiles download rest
      (r.1, jsOr f.name (str "unknown") :: r.2)

/-- Lines 870-872: suffix the outgoing text with the unsupported-type names,
only when there are any. -/
def annotateUnsupported (messageText : Str) (unsupported : List Str) : Str :=
  if unsupported = [] then messageText
  else messageText ++ str "\n\n[Unsupported file types: " ++
    List.intercalate (str ", ") unsupported ++ str "]"

-- ============================================
-- Text-send phase of `handleMessage` (lines 904-924)
-- ============================================

/-- Result of the text-send phase: the text handed to `sendToWindow`, the
`pendingPermission` flag persisted back, the content written to the
pending-hash file, and the keystrokes. -/
structure TextSendResult where
  textToSend : Str
  pendingPermissionAfter : Bool
  pendingFileContent : Str
  keys : List KeyAction
deriving DecidableEq

/-- bridge.js `handleMessage` lines 904-924: skip when the trimmed text is
empty; else, when the session has `pendingPermission` and the text is neither
an option selection nor an option-with-instructions, rewrite it to
`"3 " + text`; clear `pendingPermission` whenever it was set; write the
pending-hash file with `md5(trimmed original text)`; inject via
`sendToWindow`. -/
def textPhase (session : Session) (messageText : Str) (md5 : Str → Str) :
    Option TextSendResult :=
  if trim messageText = [] then none
  else
    let rewrite : Bool :=
      session.pendingPermission && !isOptionSelection messageText &&
        !(parseOptionWithInstructions messageText).isSome
    let textToSend := if rewrite then '3' :: ' ' :: messageText else messageText
    some { textToSend := textToSend,
           pendingPermissionAfter :=
             if session.pendingPermission then false else session.pendingPermission,
           pendingFileContent := md5 (trim messageText),
           keys := sendToWindow textToSend }

-- ============================================
-- Duplicate suppressor: bridge write + prompt-forwarding hook
-- (bridge.js line 922, slack-notify.sh slack-forward-prompt)
-- ============================================

/-- Content the bridge writes to `/tmp/claude-slack-pending-<threadTs>` just
before injecting text: `md5(messageText.trim())`. -/
def pendingContentForText (md5 : Str → Str) (messageText : Str) : Str :=
  md5 (trim messageText)

/-- `sed 's/^[[:space:]]*//;s/[[:space:]]*$//'` is line-oriented: it trims
every line of its input. Together with the trailing-newline stripping of the
shell command substitution this is the hook's "trimmed prompt". -/
def sedTrimLines (s : Str) : Str :=
  ((List.intercalate ['\n'] ((s.splitOn '\n').map trim)).reverse.dropWhile
      (fun c => decide (c = '\n'))).reverse

/-- The pending-hash check of the prompt-forwarding hook in slack-notify.sh:
given the pending file content (if the file exists) and the prompt the
assistant observed, the hook hashes the sed-trimmed prompt and suppresses the
echo exactly when the hashes agree; the pending file is removed in both the
match and the mismatch case. Returns (echo suppressed, remaining pending-file
content). -/
def hookPromptCheck (md5 : Str → Str) (pendingFileContent : Option Str)
    (prompt : Str) : Bool × Option Str :=
  match pendingFileContent with
  | some pendingHash =>
    let trimmedPrompt := sedTrimLines prompt
    let promptHash := md5 trimmedPrompt
    if pendingHash = promptHash then (true, none) else (false, none)
  | none => (false, none)

-- ============================================
-- Authorization and event guards
-- ============================================

/-- bridge.js `isAuthorized`: an absent or empty `allowedUsers` list allows
everyone; otherwise membership is required. -/
def isAuthorized (cfg : Config) (userId : Str) : Bool :=
  match cfg.allowedUsers with
  | none => true
  | some l => if l.length = 0 then true else decide (userId ∈ l)

/-- The fields of a message event that the `app.message` guards read. -/
structure GuardMsg where
  bot_id : Option Str
  subtype : Option Str
  user : Option Str

/-- What the guard prefix of an event handler decides. -/
inductive GuardResult where
  | ignored
  | refused
  | proceeds
deriving DecidableEq

/-- The guard prefix of `app.message` (lines 1148-1156): bot messages,
subtypes other than `file_share`, and user-less messages are dropped
silently; an unauthorized user gets the canned refusal; everything else is
processed. -/
def messageGuard (cfg : Config) (m : GuardMsg) : GuardResult :=
  if m.bot_id.isSome then GuardResult.ignored
  else if m.subtype.isSome ∧ m.subtype ≠ some (str "file_share") then GuardResult.ignored
  else
    match m.user with
    | none => GuardResult.ignored
    | some u => if isAuthorized cfg u then GuardResult.proceeds else GuardResult.refused

/-- The guard of `app_mention` (lines 1227-1230). -/
def mentionGuard (cfg : Config) (user : Str) : GuardResult :=
  if isAuthorized cfg user then GuardResult.proceeds else GuardResult.refused

/-- The guard shared by the slash-command handlers (`/claude-sessions` etc.). -/
def commandGuard (cfg : Config) (userId : Str) : GuardResult :=
  if isAuthorized cfg userId then GuardResult.proceeds else GuardResult.refused

-- ============================================
-- Reaction handler (bridge.js `app.event('reaction_added')`)
-- ============================================

/-- The fields of a `reaction_added` event the handler reads. -/
structure ReactionEvent where
  user : Str
  reaction : Str
  itemTs : Option Str
  itemChannel : Str

/-- bridge.js reaction handler: ignore unauthorized users, items without a
timestamp, unknown threads and terminated sessions; a stop-type reaction
terminates the session and posts the skull confirmation; a check-type
reaction sends the single `1` keystroke; an x-type reaction sends Escape. -/
def reactionStep (cfg : Config) (sessions : Registry) (ev : ReactionEvent) :
    Registry × List Effect :=
  if !isAuthorized cfg ev.user then (sessions, [])
  else
    match ev.itemTs with
    | none => (sessions, [])
    | some threadTs =>
      match regLookup sessions threadTs with
      | none => (sessions, [])
      | some session =>
        if session.status = Status.terminated then (sessions, [])
        else if ev.reaction = str "octagonal_sign" ∨ ev.reaction = str "stop_sign" ∨
            ev.reaction = str "no_entry" then
          let r := terminateSession cfg sessions threadTs session
          (r.1, r.2 ++ [Effect.postMessage ev.itemChannel threadTs skullViaReactionText])
        else if ev.reaction = str "white_check_mark" ∨
            ev.reaction = str "heavy_check_mark" then
          (sessions, [Effect.sendKeys session.window [KeyAction.key '1']])
        else if ev.reaction = str "x" ∨ ev.reaction = str "negative_squared_cross_mark" then
          (sessions, [Effect.sendKeys session.window [KeyAction.escape]])
        else (sessions, [])

end SlackBridge


namespace SlackBridge

/-- A raw config whose `multiSession.maxConcurrent` is configured as `0`
(everything else absent), used to exercise `loadConfig` defaulting. -/
def rawConfigZeroMax : RawConfig :=
  { allowedUsers := none,
    multiSession := some
      { maxConcurrent := some 0, idleTimeoutMinutes := none,
        notifyOnTimeout := none, tmuxSession := none, defaultWorkingDir := none,
        tempFileRetentionDays := none } }


-- ============================================
-- Concrete fixtures for witnesses and counterexamples
-- ============================================

/-- A stat function for an environment with no filesystem entries. -/
def statAbsent : Str → FsStat := fun _ => FsStat.absent

/-- A home directory value. -/
def homeW : Str := str "/home/user"

/-- A first message of a new thread. -/
def msgHi : InboundMessage :=
  { text := str "hi", ts := str "1001.0", thread_ts := none, files := [] }

/-- Effective configuration with every field defaulted. -/
def cfgDefault : Config := loadConfig { allowedUsers := none, multiSession := none }

/-- Effective configuration with `maxConcurrent` configured as `1`. -/
def cfgMax1 : Config :=
  loadConfig
    { allowedUsers := none,
      multiSession := some
        { maxConcurrent := some 1, idleTimeoutMinutes := none,
          notifyOnTimeout := none, tmuxSession := none, defaultWorkingDir := none,
          tempFileRetentionDays := none } }

/-- Effective configuration whose `allowedUsers` is the empty list. -/
def cfgEmptyAllow : Config := loadConfig { allowedUsers := some [], multiSession := none }

/-- An active session with a known assistant id and a renamed window. -/
def sessA : Session :=
  { window := str "abcd1234", sessionId := some (str "abcd1234-ffff"),
    channel := str "C1", workingDir := str "/x",
    created_at := 0, last_activity := 0, idle_since := none,
    status := Status.active, pendingPermission := false, lastMessageTs := none }

/-- `sessA` after termination (eligible for resurrection). -/
def sessT : Session := { sessA with status := Status.terminated }

/-- `sessA` with a pending permission prompt. -/
def sessP : Session := { sessA with pendingPermission := true }

/-- A registry holding one active session. -/
def regOneActive : Registry := [(str "200.0", sessA)]

/-- A reply in the thread of a terminated session. -/
def msgReply : InboundMessage :=
  { text := str "hello", ts := str "300.5", thread_ts := some (str "300.0"), files := [] }

/-- Registry with a resurrectable terminated session and one active session. -/
def regLimitMix : Registry := [(str "300.0", sessT), (str "201.0", sessA)]

end SlackBridge

namespace SlackBridge

-- ============================================
-- Registry helper lemmas
-- ============================================

lemma regLookup_regSet (r : Registry) (t : Str) (v : Session) :
    regLookup (regSet r t v) t = some v := by
  induction r with
  | nil => simp [regSet, regLookup]
  | cons p rest ih =>
    obtain ⟨k, w⟩ := p
    by_cases hk : k = t
    · simp [regSet, hk, regLookup]
    · simp [regSet, hk, regLookup, ih]

lemma regLookup_regSet_ne (r : Registry) (t t' : Str) (v : Session) (h : t' ≠ t) :
    regLookup (regSet r t v) t' = regLookup r t' := by
  have hne : ¬t = t' := fun hh => h hh.symm
  induction r with
  | nil =>
    simp only [regSet, regLookup]
    rw [if_neg hne]
  | cons p rest ih =>
    obtain ⟨k, w⟩ := p
    by_cases hk : k = t
    · subst hk
      simp only [regSet, if_pos rfl, regLookup]
      rw [if_neg hne, if_neg hne]
    · simp only [regSet, if_neg hk, regLookup, ih]

lemma creationLocked_limit (cfg : Config) (home : Str) (sessions : Registry)
    (threadTs : Str) (channel : Str) (wd : Option Str) (idx : Nat) (now : Nat)
    (h : cfg.multiSession.maxConcurrent ≤ activeCount sessions) :
    creationLocked cfg home sessions threadTs channel wd idx now =
      (CreationOutcome.limitReached, sessions,
        [Effect.say threadTs (limitNoticeText cfg.multiSession.maxConcurrent)]) := by
  unfold creationLocked
  rw [if_pos h]


-- ============================================
-- C1: concurrency limit; maxConcurrent = 0
-- ============================================

/-- Claim C1, corrected. (a) On a thread with no non-terminated session and a
non-empty message, when the non-terminated session count has reached
`maxConcurrent`, `handleMessage` posts the limit notice in the thread, leaves
the registry unchanged and produces no other effect (so no session and no
window is created). (b) However, a `maxConcurrent` configured as `0` is falsy
in JS, so `loadConfig` replaces it with the default `5` — a new thread is then
refused only once five non-terminated sessions exist, not always as the claim
states. -/
theorem C1_limit_enforcement :
    (∀ (cfg : Config) (stat : Str → FsStat) (home : Str) (sessions : Registry)
      (msg : InboundMessage) (channel : Str) (idx now : Nat),
      (∀ s, regLookup sessions (threadOf msg) = some s → s.status = Status.terminated) →
      msg.text ≠ [] →
      cfg.multiSession.maxConcurrent ≤ activeCount sessions →
      handleMessageCreation cfg stat home sessions msg channel idx now =
        (CreationOutcome.limitReached, sessions,
          [Effect.say (threadOf msg) (limitNoticeText cfg.multiSession.maxConcurrent)])) ∧
    (∀ (raw : RawConfig) (ms : RawMultiSession),
      raw.multiSession = some ms → ms.maxConcurrent = some 0 →
      (loadConfig raw).multiSession.maxConcurrent = 5) := by
  constructor
  · intro cfg stat home sessions msg channel idx now hterm htext hlimit
    have hguard : ¬(msg.text = [] ∧ msg.files = []) := fun hh => htext hh.1
    rcases hlook : regLookup sessions (threadOf msg) with _ | s
    · simp [handleMessageCreation, hguard, hlook,
        creationLocked_limit _ _ _ _ _ _ _ _ hlimit]
    · have hs := hterm s hlook
      simp [handleMessageCreation, hguard, hlook, hs,
        creationLocked_limit _ _ _ _ _ _ _ _ hlimit]
  · intro raw ms h1 h2
    simp [loadConfig, h1, h2, jsOrNat]

/-- Counterexample to claim C1 as stated: with `maxConcurrent` configured as
`0` and an empty registry, the first message of a new thread does NOT receive
the limit notice — a window is created, because `loadConfig` coerced the `0`
to the default `5`. -/
theorem C1_counterexample :
    (loadConfig rawConfigZeroMax).multiSession.maxConcurrent = 5 ∧
    (handleMessageCreation (loadConfig rawConfigZeroMax) statAbsent homeW []
        msgHi (str "D1") 1 0).1 ≠ CreationOutcome.limitReached ∧
    Effect.createWindow (provisionalName 1) ∈
      (handleMessageCreation (loadConfig rawConfigZeroMax) statAbsent homeW []
        msgHi (str "D1") 1 0).2.2 := by
  decide

/-- Witness for C1 at a concrete input: one active session and
`maxConcurrent = 1` yield the limit notice and an unchanged registry. -/
theorem C1_limit_enforcement_witness :
    handleMessageCreation cfgMax1 statAbsent homeW regOneActive msgHi (str "D1") 1 0 =
      (CreationOutcome.limitReached, regOneActive,
        [Effect.say (str "1001.0") (limitNoticeText 1)]) ∧
    (loadConfig rawConfigZeroMax).multiSession.maxConcurrent = 5 := by
  constructor
  · exact C1_limit_enforcement.1 cfgMax1 statAbsent homeW regOneActive msgHi (str "D1") 1 0
      (fun s hs => by
        rw [show regLookup regOneActive (threadOf msgHi) = none from by decide] at hs
        exact Option.noConfusion hs)
      (by decide) (by decide)
  · exact C1_limit_enforcement.2 rawConfigZeroMax _ rfl rfl

end SlackBridge

namespace SlackBridge

-- ============================================
-- C7: terminate frame conditions
-- ============================================

/-- Claim C7: `terminateSession` kills the session's window, flips the
registry record's status to `terminated` while preserving every other field
(`sessionId`, `workingDir`, `window`, `channel`, timestamps, — the record
update is exactly `{ s with status := terminated }`), leaves every other
thread's record untouched, posts the timeout notice exactly when
`notifyOnTimeout` is set, and deletes no temp directory. -/
theorem C7_terminate_frame (cfg : Config) (sessions : Registry) (t : Str)
    (s : Session) (h : regLookup sessions t = some s) :
    regLookup (terminateSession cfg sessions t s).1 t =
      some { s with status := Status.terminated } ∧
    (∀ t', t' ≠ t →
      regLookup (terminateSession cfg sessions t s).1 t' = regLookup sessions t') ∧
    (terminateSession cfg sessions t s).2 =
      [Effect.killWindow s.window] ++
        (if cfg.multiSession.notifyOnTimeout then
          [Effect.postMessage s.channel t timeoutNoticeText] else []) ∧
    (∀ p, Effect.deleteTempDir p ∉ (terminateSession cfg sessions t s).2) := by
  refine ⟨?_, ?_, ?_, ?_⟩
  · simp [terminateSession, h, regLookup_regSet]
  · intro t' ht'
    simp [terminateSession, h, regLookup_regSet_ne _ _ _ _ ht']
  · simp [terminateSession, h]
  · intro p
    by_cases hn : cfg.multiSession.notifyOnTimeout <;>
      simp [terminateSession, h, hn]

/-- Witness for C7 at a concrete input: terminating the one active session
of `regOneActive` flips only its status. -/
theorem C7_terminate_frame_witness :
    regLookup (terminateSession cfgDefault regOneActive (str "200.0") sessA).1
        (str "200.0") = some { sessA with status := Status.terminated } ∧
    (terminateSession cfgDefault regOneActive (str "200.0") sessA).2 =
      [Effect.killWindow sessA.window] ++
        (if cfgDefault.multiSession.notifyOnTimeout then
          [Effect.postMessage sessA.channel (str "200.0") timeoutNoticeText] else []) := by
  have h := C7_terminate_frame cfgDefault regOneActive (str "200.0") sessA (by decide)
  exact ⟨h.1, h.2.2.1⟩

-- ============================================
-- C9: allow-list authorization of messages
-- ============================================

/-- Claim C9, corrected. When `allowedUsers` is configured as a non-empty
list, a message that passes the bot/subtype/user guards is processed exactly
when its sender is in the list, and a sender outside the list gets the canned
refusal (and nothing else). The correction: with an absent or empty
`allowedUsers`, `isAuthorized` lets every user through, so "processed only if
the user id is a member of the configured list" fails (see the
counterexample). -/
theorem C9_authorization (cfg : Config) (l : List Str) (m : GuardMsg) (u : Str)
    (hal : cfg.allowedUsers = some l) (hne : l ≠ [])
    (hbot : m.bot_id = none)
    (hsub : m.subtype = none ∨ m.subtype = some (str "file_share"))
    (huser : m.user = some u) :
    (messageGuard cfg m = GuardResult.proceeds ↔ u ∈ l) ∧
    (u ∉ l → messageGuard cfg m = GuardResult.refused) := by
  have hlen : l.length ≠ 0 := fun hh => hne (List.length_eq_zero.mp hh)
  have hauth : isAuthorized cfg u = decide (u ∈ l) := by
    simp [isAuthorized, hal, hlen]
  rcases hsub with hsub | hsub <;>
  · constructor
    · constructor
      · intro hp
        by_contra hmem
        simp [messageGuard, hbot, hsub, huser, hauth, hmem] at hp
      · intro hmem
        simp [messageGuard, hbot, hsub, huser, hauth, hmem]
    · intro hmem
      simp [messageGuard, hbot, hsub, huser, hauth, hmem]

/-- Counterexample to claim C9 as stated: with `allowedUsers` configured as
the empty list, a message from `U1` is processed although `U1` is not a
member of the configured list (the code treats an empty list as
"allow everyone"). -/
theorem C9_counterexample :
    messageGuard cfgEmptyAllow
        { bot_id := none, subtype := none, user := some (str "U1") } =
      GuardResult.proceeds ∧
    str "U1" ∉ ([] : List Str) := by
  constructor
  · decide
  · simp

/-- Witness for C9 at a concrete input: with allow-list `[U1]`, `U1`
proceeds. -/
theorem C9_authorization_witness :
    messageGuard (loadConfig { allowedUsers := some [str "U1"], multiSession := none })
        { bot_id := none, subtype := none, user := some (str "U1") } =
      GuardResult.proceeds := by
  exact (C9_authorization _ [str "U1"] _ (str "U1") rfl (by decide) rfl (Or.inl rfl)
    rfl).1.mpr (by decide)

-- ============================================
-- C10: absent or empty allow-list admits everyone
-- ============================================

/-- Claim C10: with `allowedUsers` absent or empty, `isAuthorized` accepts
every user id, so no message, mention or slash command is ever refused (the
reaction handler uses the same `isAuthorized` gate). -/
theorem C10_open_authorization (cfg : Config) (u : Str)
    (h : cfg.allowedUsers = none ∨ cfg.allowedUsers = some []) :
    isAuthorized cfg u = true ∧
    mentionGuard cfg u = GuardResult.proceeds ∧
    commandGuard cfg u = GuardResult.proceeds ∧
    (∀ m : GuardMsg, messageGuard cfg m ≠ GuardResult.refused) := by
  have hauth : ∀ v : Str, isAuthorized cfg v = true := by
    intro v
    rcases h with h | h <;> simp [isAuthorized, h]
  refine ⟨hauth u, by simp [mentionGuard, hauth], by simp [commandGuard, hauth], ?_⟩
  intro m
  unfold messageGuard
  rcases m with ⟨b, st, us⟩
  rcases b with _ | b
  · rcases us with _ | v
    · simp
    · by_cases hst : st.isSome = true ∧ ¬st = some (str "file_share") <;>
        simp [hst, hauth]
  · simp

/-- Witness for C10 at a concrete input: empty allow-list admits `U2`
everywhere. -/
theorem C10_open_authorization_witness :
    isAuthorized cfgEmptyAllow (str "U2") = true ∧
    mentionGuard cfgEmptyAllow (str "U2") = GuardResult.proceeds := by
  have h := C10_open_authorization cfgEmptyAllow (str "U2") (Or.inr rfl)
  exact ⟨h.1, h.2.1⟩

end SlackBridge

namespace SlackBridge

-- ============================================
-- C3: pending-hash round trip (bridge write vs hook check)
-- ============================================

/-- Claim C3 is right about the intent but the code breaks it: the bridge
hashes `trim(t)` of the whole text, while the hook pipes the prompt through
`sed 's/^[[:space:]]*//;s/[[:space:]]*$//'`, which trims EVERY LINE. For the
multi-line text `"a \nb"` (trailing space inside the first line) observed
verbatim as the prompt, `trim t = trim t'` trivially, yet the hashes differ
for any injective hash, so the echo is NOT suppressed — contradicting
"suppressed iff trim(t) == trim(t')" and the hook's own comment "Trim
whitespace before hashing to match bridge's hash". The pending file is
still deleted (second component `none`). -/
theorem C3_hook_hash_mismatch (md5 : Str → Str) (hinj : Function.Injective md5) :
    (hookPromptCheck md5 (some (pendingContentForText md5 (str "a \nb")))
        (str "a \nb")).1 = false ∧
    (hookPromptCheck md5 (some (pendingContentForText md5 (str "a \nb")))
        (str "a \nb")).2 = none ∧
    trim (str "a \nb") = trim (str "a \nb") := by
  have hne : trim (str "a \nb") ≠ sedTrimLines (str "a \nb") := by decide
  have hh : ¬(md5 (trim (str "a \nb")) = md5 (sedTrimLines (str "a \nb"))) :=
    fun h => hne (hinj h)
  refine ⟨?_, ?_, rfl⟩ <;>
    simp [hookPromptCheck, pendingContentForText, hh]

/-- Witness for C3 at a concrete (injective) hash: the identity function. -/
theorem C3_hook_hash_mismatch_witness :
    (hookPromptCheck (fun s => s)
        (some (pendingContentForText (fun s => s) (str "a \nb"))) (str "a \nb")).1 = false ∧
    (hookPromptCheck (fun s => s)
        (some (pendingContentForText (fun s => s) (str "a \nb"))) (str "a \nb")).2 = none := by
  have h := C3_hook_hash_mismatch (fun s => s) (fun {a b} hab => hab)
  exact ⟨h.1, h.2.1⟩

-- ============================================
-- C5: pendingPermission rewrite to "3 <text>"
-- ============================================

/-- Claim C5: on a session with `pendingPermission` set, a non-empty inbound
text that is neither a simple option selection nor an option-with-
instructions is rewritten to `"3 " + text` before being handed to
`sendToWindow`, `pendingPermission` is cleared, and the pending-hash file
receives `md5(trim(original text))` — the hash of the original, not of the
rewritten text. -/
theorem C5_pending_permission_rewrite (session : Session) (messageText : Str)
    (md5 : Str → Str)
    (hp : session.pendingPermission = true)
    (hne : trim messageText ≠ [])
    (hopt : isOptionSelection messageText = false)
    (hinstr : parseOptionWithInstructions messageText = none) :
    textPhase session messageText md5 =
      some { textToSend := '3' :: ' ' :: messageText,
             pendingPermissionAfter := false,
             pendingFileContent := md5 (trim messageText),
             keys := sendToWindow ('3' :: ' ' :: messageText) } := by
  simp [textPhase, hne, hp, hopt, hinstr]

/-- Witness for C5 at a concrete input: free text on a pending-permission
session. -/
theorem C5_pending_permission_rewrite_witness :
    textPhase sessP (str "please stop") (fun s => s) =
      some { textToSend := '3' :: ' ' :: str "please stop",
             pendingPermissionAfter := false,
             pendingFileContent := trim (str "please stop"),
             keys := sendToWindow ('3' :: ' ' :: str "please stop") } :=
  C5_pending_permission_rewrite sessP (str "please stop") (fun s => s)
    (by decide) (by decide) (by decide) (by decide)

-- ============================================
-- C8: attachment failures and unsupported types
-- ============================================

/-- Claim C8, corrected. The attachment loop: the downloaded paths are
exactly the successful downloads of the supported-type files, in order — a
failed download (bad status or timeout) is skipped while the remaining
attachments continue; the recorded unsupported names are exactly the
unsupported-TYPE files; and the outgoing text is suffixed with
`[Unsupported file types: <names>]` exactly when there are such files. The
correction: a FAILED download produces no annotation at all (the claimed
`[Unsupported/failed: <name>]` marker does not exist in the code; see the
counterexample). -/
theorem C8_attachment_handling (download : FileDesc → Option Str)
    (files : List FileDesc) (text : Str) :
    (processFiles download files).1 =
      files.filterMap (fun f =>
        if (isFileSupported (jsOr f.name [])).1 then download f else none) ∧
    (processFiles download files).2 =
      (files.filter (fun f => !(isFileSupported (jsOr f.name [])).1)).map
        (fun f => jsOr f.name (str "unknown")) ∧
    annotateUnsupported text (processFiles download files).2 =
      (if (processFiles download files).2 = [] then text
       else text ++ str "\n\n[Unsupported file types: " ++
         List.intercalate (str ", ") (processFiles download files).2 ++ str "]") := by
  refine ⟨?_, ?_, rfl⟩
  · induction files with
    | nil => simp [processFiles]
    | cons f rest ih =>
      by_cases hs : (isFileSupported (jsOr f.name [])).1
      · rcases hd : download f with _ | p <;>
          simp [processFiles, hs, hd, ih]
      · simp [processFiles, hs, ih]
  · induction files with
    | nil => simp [processFiles]
    | cons f rest ih =>
      by_cases hs : (isFileSupported (jsOr f.name [])).1
      · rcases hd : download f with _ | p <;>
          simp [processFiles, hs, hd, ih]
      · simp [processFiles, hs, ih]

/-- Counterexample to claim C8 as stated: a supported attachment (`a.png`)
whose download fails is skipped silently — the outgoing text is unchanged,
so it carries no `[Unsupported/failed: a.png]` marker. -/
theorem C8_counterexample :
    (isFileSupported (str "a.png")).1 = true ∧
    processFiles (fun _ => none) [{ name := some (str "a.png") }] = ([], []) ∧
    annotateUnsupported (str "hi")
        (processFiles (fun _ => none) [{ name := some (str "a.png") }]).2 =
      str "hi" := by
  decide

end SlackBridge

namespace SlackBridge

/-- Provisional names start with `new-`. -/
lemma startsWithNew_provisional (n : Nat) : startsWithNew (provisionalName n) = true := rfl


-- ============================================
-- C2: resurrection decision for terminated sessions
-- ============================================

/-- Claim C2, corrected. For a reply on a thread whose registry entry is a
terminated session, provided the message is non-empty and the count of
non-terminated sessions is below `maxConcurrent` (otherwise the limit notice
fires first and nothing is created — see the counterexample): the session is
resurrected — fresh provisional window, `--resume` with the preserved
assistant id, preserved `workingDir`, record persisted with status
`starting` — exactly when the terminated session has a known `sessionId` and
a non-provisional window name; otherwise a brand-new session (no assistant
id) is created instead. -/
theorem C2_resurrection_decision (cfg : Config) (stat : Str → FsStat) (home : Str)
    (sessions : Registry) (msg : InboundMessage) (channel : Str) (idx now : Nat)
    (t : Str) (s : Session)
    (hreply : msg.thread_ts = some t)
    (htext : msg.text ≠ [])
    (hlook : regLookup sessions t = some s)
    (hterm : s.status = Status.terminated)
    (hlimit : activeCount sessions < cfg.multiSession.maxConcurrent)
    (hdir : s.workingDir ≠ []) :
    (∀ sid, s.sessionId = some sid → startsWithNew s.window = false →
      handleMessageCreation cfg stat home sessions msg channel idx now =
        (CreationOutcome.resurrected
            { window := provisionalName idx, sessionId := some sid,
              channel := channel, workingDir := s.workingDir,
              created_at := now, last_activity := now, idle_since := none,
              status := Status.starting, pendingPermission := false,
              lastMessageTs := none },
          regSet sessions t
            { window := provisionalName idx, sessionId := some sid,
              channel := channel, workingDir := s.workingDir,
              created_at := now, last_activity := now, idle_since := none,
              status := Status.starting, pendingPermission := false,
              lastMessageTs := none },
          [Effect.createWindow (provisionalName idx),
           Effect.cdTo (provisionalName idx) s.workingDir,
           Effect.launchAssistant (provisionalName idx) (some sid),
           Effect.trustKey (provisionalName idx)]) ∧
        startsWithNew (provisionalName idx) = true) ∧
    ((s.sessionId = none ∨ startsWithNew s.window = true) →
      handleMessageCreation cfg stat home sessions msg channel idx now =
        (CreationOutcome.createdNew
            { window := provisionalName idx, sessionId := none,
              channel := channel, workingDir := home,
              created_at := now, last_activity := now, idle_since := none,
              status := Status.starting, pendingPermission := false,
              lastMessageTs := none },
          regSet sessions t
            { window := provisionalName idx, sessionId := none,
              channel := channel, workingDir := home,
              created_at := now, last_activity := now, idle_since := none,
              status := Status.starting, pendingPermission := false,
              lastMessageTs := none },
          [Effect.createWindow (provisionalName idx),
           Effect.launchAssistant (provisionalName idx) none,
           Effect.trustKey (provisionalName idx)])) := by
  have hth : threadOf msg = t := by rw [threadOf, hreply]; rfl
  have hguard : ¬(msg.text = [] ∧ msg.files = []) := fun hh => htext hh.1
  have hlim' : ¬(cfg.multiSession.maxConcurrent ≤ activeCount sessions) :=
    Nat.not_le.mpr hlimit
  constructor
  · intro sid hsid hnew
    refine ⟨?_, startsWithNew_provisional idx⟩
    simp [handleMessageCreation, hth, hguard, hreply, hlook, hterm,
      creationLocked, hlim', hsid, hnew, resurrectSession, jsOr, hdir]
  · intro hcase
    rcases hcase with hsid | hnew
    · simp [handleMessageCreation, hth, hguard, hreply, hlook, hterm,
        creationLocked, hlim', hsid, createSession, jsOr]
    · rcases hsid : s.sessionId with _ | sid
      · simp [handleMessageCreation, hth, hguard, hreply, hlook, hterm,
          creationLocked, hlim', hsid, createSession, jsOr]
      · simp [handleMessageCreation, hth, hguard, hreply, hlook, hterm,
          creationLocked, hlim', hsid, hnew, createSession, jsOr]

/-- Counterexample to claim C2 as stated: a terminated session eligible for
resurrection (known assistant id, non-provisional window) is NOT resurrected
when the concurrent-session limit is already reached — the limit notice wins. -/
theorem C2_counterexample :
    sessT.status = Status.terminated ∧
    sessT.sessionId ≠ none ∧
    startsWithNew sessT.window = false ∧
    (handleMessageCreation cfgMax1 statAbsent homeW regLimitMix msgReply
        (str "D1") 2 0).1 = CreationOutcome.limitReached := by
  decide

/-- Witness for C2 at a concrete input: below the limit, the terminated
session of thread `300.0` is resurrected with its preserved assistant id and
working directory. -/
theorem C2_resurrection_decision_witness :
    handleMessageCreation cfgDefault statAbsent homeW [(str "300.0", sessT)]
        msgReply (str "D1") 2 0 =
      (CreationOutcome.resurrected
          { window := provisionalName 2, sessionId := some (str "abcd1234-ffff"),
            channel := str "D1", workingDir := str "/x",
            created_at := 0, last_activity := 0, idle_since := none,
            status := Status.starting, pendingPermission := false,
            lastMessageTs := none },
        regSet [(str "300.0", sessT)] (str "300.0")
          { window := provisionalName 2, sessionId := some (str "abcd1234-ffff"),
            channel := str "D1", workingDir := str "/x",
            created_at := 0, last_activity := 0, idle_since := none,
            status := Status.starting, pendingPermission := false,
            lastMessageTs := none },
        [Effect.createWindow (provisionalName 2),
         Effect.cdTo (provisionalName 2) (str "/x"),
         Effect.launchAssistant (provisionalName 2) (some (str "abcd1234-ffff")),
         Effect.trustKey (provisionalName 2)]) :=
  ((C2_resurrection_decision cfgDefault statAbsent homeW [(str "300.0", sessT)]
      msgReply (str "D1") 2 0 (str "300.0") sessT rfl (by decide) (by decide)
      (by decide) (by decide) (by decide)).1 (str "abcd1234-ffff") rfl rfl).1

end SlackBridge

namespace SlackBridge

-- ============================================
-- C6: reaction commands
-- ============================================

/-- Claim C6: for a `reaction_added` event from an authorized user whose item
timestamp is the thread of a non-terminated session: a stop-type reaction
(octagonal-sign / stop-sign / no-entry) terminates the session (status
flipped in the registry, window killed, optional timeout notice) and posts
":skull: Session terminated via reaction."; a check-type reaction sends the
single keystroke `1` (no Enter) to the session's window; an x-type reaction
sends Escape; and replaying the same terminate event is a no-op because the
session is then terminated. -/
theorem C6_reaction_commands (cfg : Config) (sessions : Registry)
    (ev : ReactionEvent) (t : Str) (s : Session)
    (hauth : isAuthorized cfg ev.user = true)
    (hts : ev.itemTs = some t)
    (hlook : regLookup sessions t = some s)
    (hterm : s.status ≠ Status.terminated) :
    ((ev.reaction = str "octagonal_sign" ∨ ev.reaction = str "stop_sign" ∨
        ev.reaction = str "no_entry") →
      regLookup (reactionStep cfg sessions ev).1 t =
          some { s with status := Status.terminated } ∧
      (reactionStep cfg sessions ev).2 =
        [Effect.killWindow s.window] ++
          (if cfg.multiSession.notifyOnTimeout then
            [Effect.postMessage s.channel t timeoutNoticeText] else []) ++
          [Effect.postMessage ev.itemChannel t skullViaReactionText] ∧
      reactionStep cfg (reactionStep cfg sessions ev).1 ev =
        ((reactionStep cfg sessions ev).1, [])) ∧
    ((ev.reaction = str "white_check_mark" ∨ ev.reaction = str "heavy_check_mark") →
      reactionStep cfg sessions ev =
        (sessions, [Effect.sendKeys s.window [KeyAction.key '1']])) ∧
    ((ev.reaction = str "x" ∨ ev.reaction = str "negative_squared_cross_mark") →
      reactionStep cfg sessions ev =
        (sessions, [Effect.sendKeys s.window [KeyAction.escape]])) := by
  refine ⟨?_, ?_, ?_⟩
  · intro hr
    have hstep : reactionStep cfg sessions ev =
        ((terminateSession cfg sessions t s).1,
          (terminateSession cfg sessions t s).2 ++
            [Effect.postMessage ev.itemChannel t skullViaReactionText]) := by
      rcases hr with hr | hr | hr <;>
        simp [reactionStep, hauth, hts, hlook, hterm, hr]
    have hreg : (reactionStep cfg sessions ev).1 =
        regSet sessions t { s with status := Status.terminated } := by
      rw [hstep]
      simp [terminateSession, hlook]
    refine ⟨?_, ?_, ?_⟩
    · rw [hreg, regLookup_regSet]
    · rw [hstep]
      simp [terminateSession, hlook]
    · have hlook2 : regLookup (reactionStep cfg sessions ev).1 t =
          some { s with status := Status.terminated } := by
        rw [hreg, regLookup_regSet]
      generalize hR : (reactionStep cfg sessions ev).1 = R at hlook2 ⊢
      simp [reactionStep, hauth, hts, hlook2]
  · intro hr
    have hstop : ¬(ev.reaction = str "octagonal_sign" ∨ ev.reaction = str "stop_sign" ∨
        ev.reaction = str "no_entry") := by
      rcases hr with hr | hr <;> (rw [hr]; decide)
    rcases hr with hr | hr <;>
      (simp [reactionStep, hauth, hts, hlook, hterm, hstop, hr]
       exact fun hc => absurd hc (by decide))
  · intro hr
    have hstop : ¬(ev.reaction = str "octagonal_sign" ∨ ev.reaction = str "stop_sign" ∨
        ev.reaction = str "no_entry") := by
      rcases hr with hr | hr <;> (rw [hr]; decide)
    have hcheck : ¬(ev.reaction = str "white_check_mark" ∨
        ev.reaction = str "heavy_check_mark") := by
      rcases hr with hr | hr <;> (rw [hr]; decide)
    rcases hr with hr | hr <;>
      (simp [reactionStep, hauth, hts, hlook, hterm, hstop, hcheck, hr]
       rw [if_neg (by decide), if_neg (by decide)])

/-- Witness for C6 at a concrete input: an octagonal-sign reaction on the
active session of thread `200.0` terminates it in the registry. -/
theorem C6_reaction_commands_witness :
    regLookup (reactionStep cfgDefault regOneActive
        { user := str "U1", reaction := str "octagonal_sign",
          itemTs := some (str "200.0"), itemChannel := str "C1" }).1 (str "200.0") =
      some { sessA with status := Status.terminated } :=
  ((C6_reaction_commands cfgDefault regOneActive
      { user := str "U1", reaction := str "octagonal_sign",
        itemTs := some (str "200.0"), itemChannel := str "C1" }
      (str "200.0") sessA (by decide) rfl (by decide) (by decide)).1
    (Or.inl rfl)).1

end SlackBridge

namespace SlackBridge

-- ============================================
-- Character-class lemmas for the keystroke-policy proof
-- ============================================

lemma char_toNat_ofNat (n : Nat) (h : n < 55296) : (Char.ofNat n).toNat = n := by
  unfold Char.ofNat
  rw [dif_pos (Or.inl h)]
  rfl

lemma toNat_toLower (c : Char) :
    ((Char.toLower c).toNat = c.toNat ∧ ¬(65 ≤ c.toNat ∧ c.toNat ≤ 90)) ∨
      ((Char.toLower c).toNat = c.toNat + 32 ∧ 65 ≤ c.toNat ∧ c.toNat ≤ 90) := by
  unfold Char.toLower
  by_cases h : c.toNat ≥ 65 ∧ c.toNat ≤ 90
  · right
    rw [if_pos h, char_toNat_ofNat (c.toNat + 32) (by omega)]
    exact ⟨rfl, h⟩
  · left
    rw [if_neg h]
    exact ⟨rfl, h⟩

lemma toNat_of_toLower_eq {a c : Char} (h : Char.toLower a = c) :
    a.toNat = c.toNat ∨ (a.toNat + 32 = c.toNat ∧ 65 ≤ a.toNat ∧ a.toNat ≤ 90) := by
  rcases toNat_toLower a with ⟨h1, _⟩ | ⟨h1, h2, h3⟩
  · left
    rw [← h, h1]
  · right
    rw [← h]
    omega

/-- A character whose lowering is a lowercase letter is not a digit `1`-`9`. -/
lemma not_digit_of_lower_letter {a c : Char} (h : Char.toLower a = c)
    (hc1 : 97 ≤ c.toNat) (hc2 : c.toNat ≤ 122) : isDigit19 a = false := by
  rcases toNat_of_toLower_eq h with h' | ⟨h', _, _⟩ <;>
    (simp only [isDigit19, decide_eq_false_iff_not]; omega)

/-- A character whose lowering is a printable character is not whitespace. -/
lemma not_ws_of_lower_big {b c : Char} (h : Char.toLower b = c) (hc : 33 ≤ c.toNat) :
    isWs b = false := by
  rcases toNat_of_toLower_eq h with h' | ⟨h', h2, h3⟩ <;>
    (simp only [isWs, decide_eq_false_iff_not]; omega)

@[simp] lemma str_yes : str "yes" = ['y', 'e', 's'] := rfl

@[simp] lemma str_y : str "y" = ['y'] := rfl

@[simp] lemma str_no : str "no" = ['n', 'o'] := rfl

@[simp] lemma str_n : str "n" = ['n'] := rfl

-- ============================================
-- `parseOptionWithInstructions` fails on all simple-option shapes
-- ============================================

/-- On a one-character trimmed text every form of
`parseOptionWithInstructions` fails (no room for `\s+(.+)`). -/
lemma parse_of_trim_single (t : Str) (a : Char) (hm : trim t = [a]) :
    parseOptionWithInstructions t = none := by
  have hd : parseDigitForm [a] = none := by
    simp [parseDigitForm]
  have hyes : tryWordForm ['y', 'e', 's'] '1' [a] = none := by
    simp [tryWordForm, ciWordMatch]
  have hy : tryWordForm ['y'] '1' [a] = none := by
    by_cases hcm : ciWordMatch ['y'] [a] = true <;>
      simp [tryWordForm, hcm]
  have hno : tryWordForm ['n', 'o'] '3' [a] = none := by
    simp [tryWordForm, ciWordMatch]
  have hn : tryWordForm ['n'] '3' [a] = none := by
    by_cases hcm : ciWordMatch ['n'] [a] = true <;>
      simp [tryWordForm, hcm]
  simp [parseOptionWithInstructions, hm, hd, hyes, hy, hno, hn]

/-- On a trimmed text lowering to `no`, every form of
`parseOptionWithInstructions` fails. -/
lemma parse_of_trim_word2 (t : Str) (a b : Char) (hm : trim t = [a, b])
    (ha : Char.toLower a = 'n') (hb : Char.toLower b = 'o') :
    parseOptionWithInstructions t = none := by
  have hya : decide (Char.toLower a = 'y') = false := by
    rw [ha]; decide
  have hna : decide (Char.toLower a = 'n') = true := by
    rw [ha]; decide
  have hdig : isDigit19 a = false := not_digit_of_lower_letter ha (by decide) (by decide)
  have hwsb : isWs b = false := not_ws_of_lower_big hb (by decide)
  have hd : parseDigitForm [a, b] = none := by
    simp [parseDigitForm, hdig]
  have hyes : tryWordForm ['y', 'e', 's'] '1' [a, b] = none := by
    simp [tryWordForm, ciWordMatch]
  have hy : tryWordForm ['y'] '1' [a, b] = none := by
    simp [tryWordForm, ciWordMatch, hya]
  have hno : tryWordForm ['n', 'o'] '3' [a, b] = none := by
    simp [tryWordForm, ciWordMatch, ha, hb]
  have hn : tryWordForm ['n'] '3' [a, b] = none := by
    simp [tryWordForm, ciWordMatch, hna, hwsb]
  simp [parseOptionWithInstructions, hm, hd, hyes, hy, hno, hn]

/-- On a trimmed text lowering to `yes`, every form of
`parseOptionWithInstructions` fails. -/
lemma parse_of_trim_word3 (t : Str) (a b c2 : Char) (hm : trim t = [a, b, c2])
    (ha : Char.toLower a = 'y') (hb : Char.toLower b = 'e') (hc : Char.toLower c2 = 's') :
    parseOptionWithInstructions t = none := by
  have hna : decide (Char.toLower a = 'n') = false := by
    rw [ha]; decide
  have hdig : isDigit19 a = false := not_digit_of_lower_letter ha (by decide) (by decide)
  have hwsb : isWs b = false := not_ws_of_lower_big hb (by decide)
  have hd : parseDigitForm [a, b, c2] = none := by
    simp [parseDigitForm, hdig]
  have hyes : tryWordForm ['y', 'e', 's'] '1' [a, b, c2] = none := by
    simp [tryWordForm, ciWordMatch, ha, hb, hc]
  have hy : tryWordForm ['y'] '1' [a, b, c2] = none := by
    simp [tryWordForm, ciWordMatch, ha, hwsb]
  have hno : tryWordForm ['n', 'o'] '3' [a, b, c2] = none := by
    simp [tryWordForm, ciWordMatch, hna]
  have hn : tryWordForm ['n'] '3' [a, b, c2] = none := by
    simp [tryWordForm, ciWordMatch, hna]
  simp [parseOptionWithInstructions, hm, hd, hyes, hy, hno, hn]

end SlackBridge

namespace SlackBridge

/-- The claim-side classification coincides with the source's pair
`isOptionSelection` / `getOptionKey`. -/
lemma spec_simple_eq (t : Str) :
    specSimpleOption t = (if isOptionSelection t then getOptionKey t else none) := by
  simp only [specSimpleOption, isOptionSelection, getOptionKey]
  generalize toLowerStr (trim t) = n
  by_cases h1 : n = str "yes"
  · subst h1; decide
  by_cases h2 : n = str "no"
  · subst h2; decide
  by_cases h3 : n = str "y"
  · subst h3; decide
  by_cases h4 : n = str "n"
  · subst h4; decide
  simp only [h1, h2, h3, h4, decide_False, Bool.or_false, or_self, if_false]
  rcases n with _ | ⟨c, _ | ⟨c2, m⟩⟩
  · simp [isSingleDigit19]
  · by_cases hdig : isDigit19 c
    · simp [isSingleDigit19, hdig]
    · simp [isSingleDigit19, hdig]
  · simp [isSingleDigit19]

/-- A simple option never matches any option-with-instructions form. -/
lemma parse_none_of_simple (t : Str) (c : Char) (h : specSimpleOption t = some c) :
    parseOptionWithInstructions t = none := by
  by_cases h1 : toLowerStr (trim t) = str "yes"
  · rcases hmm : trim t with _ | ⟨a, _ | ⟨b, _ | ⟨c2, m⟩⟩⟩ <;>
      rw [hmm] at h1 <;>
      simp only [toLowerStr, List.map, str_yes, List.cons.injEq, List.map_eq_nil_iff,
        List.nil_eq, reduceCtorEq, and_false, false_and] at h1
    obtain ⟨ha, hb, hc, hm0⟩ := h1
    subst hm0
    exact parse_of_trim_word3 t a b c2 hmm ha hb hc
  by_cases h2 : toLowerStr (trim t) = str "no"
  · rcases hmm : trim t with _ | ⟨a, _ | ⟨b, m⟩⟩ <;>
      rw [hmm] at h2 <;>
      simp only [toLowerStr, List.map, str_no, List.cons.injEq, List.map_eq_nil_iff,
        List.nil_eq, reduceCtorEq, and_false, false_and] at h2
    obtain ⟨ha, hb, hm0⟩ := h2
    subst hm0
    exact parse_of_trim_word2 t a b hmm ha hb
  by_cases h3 : toLowerStr (trim t) = str "y"
  · rcases hmm : trim t with _ | ⟨a, m⟩ <;>
      rw [hmm] at h3 <;>
      simp only [toLowerStr, List.map, str_y, List.cons.injEq, List.map_eq_nil_iff,
        List.nil_eq, reduceCtorEq, and_false, false_and] at h3
    obtain ⟨_, hm0⟩ := h3
    subst hm0
    exact parse_of_trim_single t a hmm
  by_cases h4 : toLowerStr (trim t) = str "n"
  · rcases hmm : trim t with _ | ⟨a, m⟩ <;>
      rw [hmm] at h4 <;>
      simp only [toLowerStr, List.map, str_n, List.cons.injEq, List.map_eq_nil_iff,
        List.nil_eq, reduceCtorEq, and_false, false_and] at h4
    obtain ⟨_, hm0⟩ := h4
    subst hm0
    exact parse_of_trim_single t a hmm
  simp only [specSimpleOption] at h
  rw [if_neg (fun hh => hh.elim h1 h3), if_neg (fun hh => hh.elim h2 h4)] at h
  rcases hmm : trim t with _ | ⟨a, _ | ⟨b, m⟩⟩
  · rw [hmm] at h
    simp [toLowerStr] at h
  · exact parse_of_trim_single t a hmm
  · rw [hmm] at h
    simp [toLowerStr] at h

end SlackBridge

namespace SlackBridge

-- ============================================
-- C4: keystroke policy of sendToWindow
-- ============================================

/-- Claim C4: (a) a simple option (single digit `1`-`9`, or `yes`/`y`/`no`/`n`
case-insensitively after trimming, with `yes`/`y` ↦ `1` and `no`/`n` ↦ `3`)
sends exactly the corresponding digit key and no Enter; (b) an
option-with-instructions (`<digit>[.] <rest>`, `yes|y <rest>`, `no|n <rest>`)
sends Down (option − 1) times, Tab, the trailing instructions as a literal,
then Enter; (c) every other non-empty text is sent as a literal followed by
Enter, a delay, and a second Enter. -/
theorem C4_keystroke_policy (t : Str) :
    (∀ c, specSimpleOption t = some c → sendToWindow t = [KeyAction.key c]) ∧
    (∀ d instructions, parseOptionWithInstructions t = some (d, instructions) →
      sendToWindow t = List.replicate (d.toNat - 48 - 1) KeyAction.down ++
        [KeyAction.tab, KeyAction.literal instructions, KeyAction.enter]) ∧
    (specSimpleOption t = none → parseOptionWithInstructions t = none → t ≠ [] →
      sendToWindow t = [KeyAction.literal t, KeyAction.enter, KeyAction.enter]) := by
  refine ⟨?_, ?_, ?_⟩
  · intro c h
    have hp := parse_none_of_simple t c h
    have hs := spec_simple_eq t
    rw [h] at hs
    by_cases ho : isOptionSelection t
    · rw [if_pos ho] at hs
      simp [sendToWindow, hp, ho, ← hs]
    · rw [if_neg ho] at hs
      exact absurd hs (by simp)
  · intro d instructions h
    simp [sendToWindow, h]
  · intro hs hp _
    have heq := spec_simple_eq t
    rw [hs] at heq
    by_cases ho : isOptionSelection t
    · rw [if_pos ho] at heq
      simp [sendToWindow, hp, ho, ← heq]
    · simp [sendToWindow, hp, ho]

/-- Witness for C4 at concrete inputs: the amended-instruction form
`"3 fix it"` produces two Downs, Tab, the literal instructions, Enter. -/
theorem C4_keystroke_policy_witness :
    sendToWindow (str "3 fix it") =
      [KeyAction.down, KeyAction.down, KeyAction.tab,
       KeyAction.literal (str "fix it"), KeyAction.enter] :=
  (C4_keystroke_policy (str "3 fix it")).2.1 '3' (str "fix it") (by decide)

end SlackBridge
